import Mathlib

/-!
Verification of the `logshare-cli` client-orchestration core
(`src/cmd/logshare-cli/main.go`), shallowly embedded in Lean 4.

Conventions of the embedding:
* Go `string` is `String`; Go `int`/`int64` are `Int`; Go `float64`
  (only used for the sampling rate, where only order comparisons against
  the literals `0.0`, `0.1`, `0.9` matter) is `ℚ`.
* A Go `error` result is `Option String` (`none` = nil error) or
  `Except String α` where a value is also produced.
* External collaborators (the Cloudflare API, Google Cloud Storage, the
  `logshare` library transport) are oracles supplied as explicit
  parameters; the core's branching on their outcomes is translated
  verbatim from the source.
* A Go runtime panic (nil-pointer dereference) is a distinguished
  constructor of the result type, never silently dropped.
-/

/-- The characters of `pat` occur at the start of `s`
(model of a prefix test on rune lists). -/
def charsStartsWith : List Char → List Char → Bool
  | [], _ => true
  | _ :: _, [] => false
  | a :: as, b :: bs => a == b && charsStartsWith as bs

/-- The characters of `pat` occur contiguously somewhere in `s`. -/
def charsHas (pat : List Char) : List Char → Bool
  | [] => pat.isEmpty
  | c :: rest => charsStartsWith pat (c :: rest) || charsHas pat rest

/-- Model of Go `strings.Contains s pat`. -/
def stringsContains (s pat : String) : Bool :=
  charsHas pat.toList s.toList

/-- Model of `errors.Wrap err msg` from github.com/pkg/errors:
the wrapped error's message is `msg ++ ": " ++ err.Error()`. -/
def errorsWrap (cause msg : String) : String :=
  msg ++ ": " ++ cause

/-- The `config` struct of main.go, populated by `parseFlags` from CLI
input. -/
structure Config where
  apiKey : String
  apiEmail : String
  zoneID : String
  zoneName : String
  startTime : Int
  endTime : Int
  count : Int
  timestampFormat : String
  sample : ℚ
  fields : List String
  listFields : Bool
  googleStorageBucket : String
  googleProjectID : String
  deriving Repr, DecidableEq

/-- `(*config).Validate` from main.go, translated branch for branch.
It is a pure function of the configuration (the Go method only reads
`conf`), returning `some msg` where the Go method returns
`errors.New(msg)` and `none` where it returns `nil`. -/
def Config.Validate (conf : Config) : Option String :=
  if conf.apiKey == "" || conf.apiEmail == "" then
    some "Must provide both api-key and api-email"
  else if conf.zoneID == "" && conf.zoneName == "" then
    some "zone-name OR zone-id must be set"
  else if conf.sample != 0 && (decide (conf.sample < 1/10) || decide (conf.sample > 9/10)) then
    some "sample must be between 0.1 and 0.9"
  else if (conf.googleStorageBucket == "") != (conf.googleProjectID == "") then
    some "Both google-storage-bucket and google-project-id must be provided to upload to Google Storage"
  else
    none

/-- Invariant 1: both credential fields are non-empty. -/
def credOK (conf : Config) : Prop :=
  conf.apiKey ≠ "" ∧ conf.apiEmail ≠ ""

/-- Invariant 2: the zone identifier or the zone name is non-empty. -/
def zoneOK (conf : Config) : Prop :=
  conf.zoneID ≠ "" ∨ conf.zoneName ≠ ""

/-- Invariant 3: the sampling rate is exactly 0 or lies in [0.1, 0.9]. -/
def sampleOK (conf : Config) : Prop :=
  conf.sample = 0 ∨ (1/10 ≤ conf.sample ∧ conf.sample ≤ 9/10)

/-- Invariant 4: bucket name and project identifier are both empty or
both non-empty. -/
def storageOK (conf : Config) : Prop :=
  (conf.googleStorageBucket = "") ↔ (conf.googleProjectID = "")

instance (conf : Config) : Decidable (credOK conf) := by
  unfold credOK; infer_instance

instance (conf : Config) : Decidable (zoneOK conf) := by
  unfold zoneOK; infer_instance

instance (conf : Config) : Decidable (sampleOK conf) := by
  unfold sampleOK; infer_instance

instance (conf : Config) : Decidable (storageOK conf) := by
  unfold storageOK; infer_instance

/-- A configuration with every field defaulted, used to build concrete
test configurations by field update. -/
def baseConf : Config :=
  { apiKey := "k", apiEmail := "e", zoneID := "z1", zoneName := ""
    startTime := 1000, endTime := 2000, count := 5
    timestampFormat := "unixnano", sample := 0, fields := []
    listFields := false, googleStorageBucket := "", googleProjectID := "" }

/-- A `*gcs.Writer` opened on an object: identified by its bucket and
object name (the write-stream returned by `obj.NewWriter(gCtx)`). -/
structure GWriter where
  bucket : String
  object : String
  deriving Repr, DecidableEq

/-- Outcomes of the Google Cloud Storage calls `setupGoogleStr` makes,
supplied as an oracle: the error of `gcs.NewClient` and the error of
`gBucket.Create` (`none` = nil error, i.e. the call succeeded). -/
structure GcsEnv where
  newClientErr : Option String
  createErr : Option String
  deriving Repr, DecidableEq

/-- Result of `setupGoogleStr`: either the `(writer, nil)` pair, a
`(nil, err)` pair, or a runtime panic (nil-pointer dereference). -/
inductive SetupResult where
  | ok (w : GWriter)
  | fail (msg : String)
  | nilDeref
  deriving Repr, DecidableEq

/-- `setupGoogleStr` from main.go, translated statement for statement.
The source reads

    if error = gBucket.Create(gCtx, projectID, nil); strings.Contains(error.Error(), "409") {
        log.Printf(...); error = nil
    } else if error != nil {
        return nil, error
    }
    obj := gBucket.Object(filename)
    return obj.NewWriter(gCtx), error

The guard calls `error.Error()` before any nil check, so when `Create`
returns a nil error the call dereferences nil and panics; that path is
the `nilDeref` constructor. -/
def setupGoogleStr (env : GcsEnv) (projectID bucketName filename : String) :
    SetupResult :=
  match env.newClientErr with
  | some e => .fail e
  | none =>
    match env.createErr with
    | none => .nilDeref
    | some e =>
      if stringsContains e "409" then .ok ⟨bucketName, filename⟩
      else .fail e
  
/-- The zone-backfill block of `GetClientFromConfigAndContext`
(main.go lines 116–126), with the external calls as oracles:
`cfNewErr` is the error result of `cloudflare.New` (the source assigns
it to `err` and immediately overwrites it on the next line) and
`lookup` is `cf.ZoneIDByName`.  Returns the updated configuration (Go
mutates `conf.zoneID` through the pointer) or the wrapped error, paired
with the number of times the name-lookup capability was invoked. -/
def resolveZone (cfNewErr : Option String)
    (lookup : String → Except String String) (conf : Config) :
    Except String Config × Nat :=
  if conf.zoneID == "" then
    match lookup conf.zoneName with
    | .error e => (.error (errorsWrap e "could not find a zone for the given ID"), 1)
    | .ok id => (.ok { conf with zoneID := id }, 1)
  else
    (.ok conf, 0)

/-- The `logshare.Options` value passed to `logshare.New` in
`GetClientFromConfigAndContext`. -/
structure LSOptions where
  fields : List String
  dest : Option GWriter
  byReceived : Bool
  sample : ℚ
  timestampFormat : String
  deriving Repr, DecidableEq

/-- The `*logshare.Client` assembled by `logshare.New` (credentials plus
options; its fetch methods are network calls, modelled by `FetchEnv`). -/
structure LSClient where
  apiKey : String
  apiEmail : String
  options : LSOptions
  deriving Repr, DecidableEq

/-- External outcomes `GetClientFromConfigAndContext` depends on:
the `cloudflare.New` error, the `cf.ZoneIDByName` lookup, the Google
Cloud Storage calls, the `logshare.New` error, and the value of
`time.Now().Unix()` read when deriving the object name. -/
structure Env where
  cfNewErr : Option String
  lookup : String → Except String String
  gcs : GcsEnv
  logshareNewErr : Option String
  nowUnix : Int

/-- How `GetClientFromConfigAndContext` ends: with a `(client, nil)`
pair, with a `(nil, err)` pair, or by propagating a runtime panic from
`setupGoogleStr`. -/
inductive GCOutcome where
  | ok (client : LSClient)
  | errored (msg : String)
  | panicked
  deriving Repr, DecidableEq

/-- Result of `GetClientFromConfigAndContext`: the outcome, the final
state of `*conf` (the function mutates only `conf.zoneID`, via the
backfill), the length of the returned `closers` slice, and how many
times the zone name-lookup capability was invoked. -/
structure GCResult where
  outcome : GCOutcome
  conf : Config
  closers : Nat
  lookupCalls : Nat

/-- Tail of `GetClientFromConfigAndContext`: the `logshare.New` call and
final return (main.go lines 137–153). -/
def mkLogshareClient (env : Env) (conf : Config) (dest : Option GWriter)
    (closers lookupCalls : Nat) : GCResult :=
  match env.logshareNewErr with
  | some e => ⟨.errored e, conf, closers, lookupCalls⟩
  | none =>
    ⟨.ok { apiKey := conf.apiKey, apiEmail := conf.apiEmail
           options := { fields := conf.fields, dest := dest, byReceived := true
                        sample := conf.sample, timestampFormat := conf.timestampFormat } },
     conf, closers, lookupCalls⟩

/-- `GetClientFromConfigAndContext` from main.go.  `cliConf` is the
configuration as populated from CLI input by `parseFlags` (whose body is
a field-for-field copy of flag values); the function then validates,
backfills the zone ID if absent, optionally opens the durable-storage
write-stream, and builds the logshare client. -/
def GetClientFromConfigAndContext (env : Env) (cliConf : Config) : GCResult :=
  match cliConf.Validate with
  | some e => ⟨.errored e, cliConf, 0, 0⟩
  | none =>
    match resolveZone env.cfNewErr env.lookup cliConf with
    | (.error e, n) => ⟨.errored e, cliConf, 0, n⟩
    | (.ok conf, n) =>
      if conf.googleStorageBucket != "" then
        let fileName := "cloudflare_els_" ++ conf.zoneID ++ "_" ++ toString env.nowUnix ++ ".json"
        match setupGoogleStr env.gcs conf.googleProjectID conf.googleStorageBucket fileName with
        | .nilDeref => ⟨.panicked, conf, 0, n⟩
        | .fail e => ⟨.errored e, conf, 0, n⟩
        | .ok w => mkLogshareClient env conf (some w) 1 n
      else
        mkLogshareClient env conf none 0 n

/-- The `*logshare.Meta` record each fetch returns. -/
structure Meta where
  statusCode : Int
  duration : Int
  url : String
  count : Int
  deriving Repr, DecidableEq

/-- The remote log-export API as seen through the two fetch methods of
`*logshare.Client` used by `ClientWork`. -/
structure FetchEnv where
  fetchFieldNames : String → Except String Meta
  getFromTimestamp : String → Int → Int → Int → Except String Meta

/-- Observable events of a run: the two `log.Printf` lines printed on a
successful fetch, the `log.Println(err)` of a failed loop iteration, the
`log.Println("sleeping for seconds :", loopTime)` line, and the
`time.Sleep` suspension. -/
inductive Event where
  | logHTTP (statusCode duration : Int) (url : String)
  | logRetrieved (count : Int)
  | logError (msg : String)
  | logSleep (seconds : Int)
  | sleep (seconds : Int)
  deriving Repr, DecidableEq

/-- Result of one `ClientWork` call: its returned error, the log lines
it printed, and the argument lists of the calls it made to each of the
two fetch methods (in call order). -/
structure CWResult where
  err : Option String
  logs : List Event
  fieldNameCalls : List String
  timestampCalls : List (String × Int × Int × Int)
  deriving Repr, DecidableEq

/-- `ClientWork` from main.go: dispatches on `conf.listFields` to
exactly one fetch method, wraps a failure with the operation-specific
context, and on success logs the result metadata and returns nil. -/
def ClientWork (fenv : FetchEnv) (conf : Config) (client : LSClient) : CWResult :=
  if conf.listFields then
    match fenv.fetchFieldNames conf.zoneID with
    | .error e =>
      { err := some (errorsWrap e "failed to fetch field names")
        logs := [], fieldNameCalls := [conf.zoneID], timestampCalls := [] }
    | .ok meta =>
      { err := none
        logs := [.logHTTP meta.statusCode meta.duration meta.url, .logRetrieved meta.count]
        fieldNameCalls := [conf.zoneID], timestampCalls := [] }
  else
    match fenv.getFromTimestamp conf.zoneID conf.startTime conf.endTime conf.count with
    | .error e =>
      { err := some (errorsWrap e "failed to fetch via timestamp")
        logs := [], fieldNameCalls := []
        timestampCalls := [(conf.zoneID, conf.startTime, conf.endTime, conf.count)] }
    | .ok meta =>
      { err := none
        logs := [.logHTTP meta.statusCode meta.duration meta.url, .logRetrieved meta.count]
        fieldNameCalls := []
        timestampCalls := [(conf.zoneID, conf.startTime, conf.endTime, conf.count)] }

/-- One iteration of the `for` body in `runLoop`: call `ClientWork`, log
the error if there was one, log the sleep notice, sleep. -/
def loopIter (fenv : FetchEnv) (conf : Config) (client : LSClient)
    (loopTime : Int) : List Event :=
  (ClientWork fenv conf client).logs ++
    (match (ClientWork fenv conf client).err with
     | some e => [.logError e]
     | none => []) ++
    [.logSleep loopTime, .sleep loopTime]

/-- The event trace of the first `n` iterations of the `for` loop in
`runLoop`.  The loop body has no `break`, `return` or `panic`: iteration
`i` runs `ClientWork` against the remote API's behaviour at that time
(`fenvs i`) and the loop continues unconditionally, so the trace is
defined for every `n`. -/
def runLoopTrace (fenvs : Nat → FetchEnv) (conf : Config) (client : LSClient)
    (loopTime : Int) : Nat → List Event
  | 0 => []
  | n + 1 => runLoopTrace fenvs conf client loopTime n ++ loopIter (fenvs n) conf client loopTime

/-- `runLoop` from main.go, observed for `n` iterations: build the
client once via `GetClientFromConfigAndContext`, then iterate.  Returns
the setup result (whose `conf` and `lookupCalls` are fixed before the
loop starts) and the loop's event trace, empty when setup failed. -/
def runLoop (env : Env) (fenvs : Nat → FetchEnv) (cliConf : Config)
    (loopTime : Int) (n : Nat) : GCResult × List Event :=
  let g := GetClientFromConfigAndContext env cliConf
  match g.outcome with
  | .ok client => (g, runLoopTrace fenvs g.conf client loopTime n)
  | _ => (g, [])

/-- A fetch environment whose two operations both fail, used in
concrete witnesses. -/
def failFetchEnv : FetchEnv :=
  ⟨fun _ => Except.error "down", fun _ _ _ _ => Except.error "down"⟩

/-- A concrete assembled client, used in concrete witnesses. -/
def testClient : LSClient :=
  ⟨"k", "e", ⟨[], none, true, 0, "unixnano"⟩⟩

/-! ### Sanity checks on concrete inputs -/

example : baseConf.Validate = none := by decide
example : Config.Validate { baseConf with apiKey := "" } =
    some "Must provide both api-key and api-email" := by decide
example : Config.Validate { baseConf with sample := 1/20 } =
    some "sample must be between 0.1 and 0.9" := by
  norm_num [Config.Validate, baseConf]
  decide
example : Config.Validate { baseConf with googleProjectID := "p" } =
    some "Both google-storage-bucket and google-project-id must be provided to upload to Google Storage" := by decide

example : setupGoogleStr ⟨none, some "googleapi: Error 409: conflict"⟩ "p" "b" "f" =
    .ok ⟨"b", "f"⟩ := by rfl
example : setupGoogleStr ⟨none, some "permission denied"⟩ "p" "b" "f" =
    .fail "permission denied" := by rfl
example : setupGoogleStr ⟨none, none⟩ "p" "b" "f" = .nilDeref := by rfl

example : resolveZone none (fun _ => .ok "z9") { baseConf with zoneID := "", zoneName := "example.com" } =
    (.ok { baseConf with zoneID := "z9", zoneName := "example.com" }, 1) := by rfl
example : resolveZone none (fun _ => .error "boom") { baseConf with zoneID := "", zoneName := "example.com" } =
    (.error "could not find a zone for the given ID: boom", 1) := by rfl
example : resolveZone (some "new failed") (fun _ => .ok "z9") baseConf = (.ok baseConf, 0) := by rfl

/-! ### Helper lemmas -/

theorem guard1_iff (conf : Config) :
    (conf.apiKey == "" || conf.apiEmail == "") = true ↔ ¬ credOK conf := by
  by_cases h1 : conf.apiKey = "" <;> by_cases h2 : conf.apiEmail = "" <;>
    simp [credOK, h1, h2]

theorem guard2_iff (conf : Config) :
    (conf.zoneID == "" && conf.zoneName == "") = true ↔ ¬ zoneOK conf := by
  by_cases h1 : conf.zoneID = "" <;> by_cases h2 : conf.zoneName = "" <;>
    simp [zoneOK, h1, h2]

theorem guard3_iff (conf : Config) :
    (conf.sample != 0 && (decide (conf.sample < 1/10) || decide (conf.sample > 9/10))) = true ↔
      ¬ sampleOK conf := by
  simp only [Bool.and_eq_true, bne_iff_ne, ne_eq, Bool.or_eq_true, decide_eq_true_eq, gt_iff_lt]
  unfold sampleOK
  push_neg
  constructor
  · rintro ⟨h0, h⟩
    refine ⟨h0, fun hle => ?_⟩
    rcases h with h | h
    · exact absurd (hle.trans_lt h) (lt_irrefl _)
    · exact h
  · rintro ⟨h0, h⟩
    refine ⟨h0, ?_⟩
    rcases lt_or_le conf.sample (1/10) with h1 | h1
    · exact Or.inl h1
    · exact Or.inr (h h1)

theorem guard4_iff (conf : Config) :
    ((conf.googleStorageBucket == "") != (conf.googleProjectID == "")) = true ↔
      ¬ storageOK conf := by
  by_cases h1 : conf.googleStorageBucket = "" <;> by_cases h2 : conf.googleProjectID = "" <;>
    simp [storageOK, h1, h2]

/-- Full characterization of `Config.Validate`: it returns `nil` exactly
when the four invariants hold, and otherwise the message of the first
violated invariant in source order. -/
theorem Validate_cases (conf : Config) :
    (conf.Validate = none ↔ credOK conf ∧ zoneOK conf ∧ sampleOK conf ∧ storageOK conf) ∧
    (¬ credOK conf → conf.Validate = some "Must provide both api-key and api-email") ∧
    (credOK conf → ¬ zoneOK conf → conf.Validate = some "zone-name OR zone-id must be set") ∧
    (credOK conf → zoneOK conf → ¬ sampleOK conf →
      conf.Validate = some "sample must be between 0.1 and 0.9") ∧
    (credOK conf → zoneOK conf → sampleOK conf → ¬ storageOK conf →
      conf.Validate = some "Both google-storage-bucket and google-project-id must be provided to upload to Google Storage") := by
  unfold Config.Validate
  split_ifs with h1 h2 h3 h4
  · rw [guard1_iff] at h1
    simp [h1]
  · rw [guard1_iff] at h1
    rw [guard2_iff] at h2
    simp [h1, h2]
  · rw [guard1_iff] at h1
    rw [guard2_iff] at h2
    rw [guard3_iff] at h3
    simp [h1, h2, h3]
  · rw [guard1_iff] at h1
    rw [guard2_iff] at h2
    rw [guard3_iff] at h3
    rw [guard4_iff] at h4
    simp [h1, h2, h3, h4]
  · rw [guard1_iff, not_not] at h1
    rw [guard2_iff, not_not] at h2
    rw [guard3_iff, not_not] at h3
    rw [guard4_iff, not_not] at h4
    simp [h1, h2, h3, h4]

/-! ### Claim theorems -/

/-- C1: when `setupGoogleStr` reaches the bucket-creation call (the
storage client was constructed) and creation fails, a failure whose
error text contains "409" is normalized to success — the function
returns the write-stream to the derived object in the configured bucket
together with a nil error — while any other creation failure is returned
as an error with no sink. -/
theorem setupGoogleStr_already_exists_normalized (env : GcsEnv)
    (projectID bucketName filename : String) (e : String)
    (hclient : env.newClientErr = none) (hcreate : env.createErr = some e) :
    (stringsContains e "409" = true →
      setupGoogleStr env projectID bucketName filename =
        .ok ⟨bucketName, filename⟩) ∧
    (stringsContains e "409" = false →
      setupGoogleStr env projectID bucketName filename = .fail e) := by
  unfold setupGoogleStr
  rw [hclient, hcreate]
  constructor
  · intro h409
    simp [h409]
  · intro h409
    simp [h409]

/-- Witness for C1 at a concrete "already exists" error. -/
theorem setupGoogleStr_already_exists_normalized_witness :
    (stringsContains "googleapi: Error 409: You already own this bucket." "409" = true →
      setupGoogleStr ⟨none, some "googleapi: Error 409: You already own this bucket."⟩
        "proj" "bucket" "file.json" = .ok ⟨"bucket", "file.json"⟩) ∧
    (stringsContains "googleapi: Error 409: You already own this bucket." "409" = false →
      setupGoogleStr ⟨none, some "googleapi: Error 409: You already own this bucket."⟩
        "proj" "bucket" "file.json" =
        .fail "googleapi: Error 409: You already own this bucket.") :=
  setupGoogleStr_already_exists_normalized
    ⟨none, some "googleapi: Error 409: You already own this bucket."⟩
    "proj" "bucket" "file.json"
    "googleapi: Error 409: You already own this bucket." rfl rfl

/-- C2 (refuted — code bug): the claim says every outcome of the
bucket-creation call yields a `(writer, error)` pair without panicking.
In the source the branch guard is
`strings.Contains(error.Error(), "409")`, evaluated before any nil
check, so when `gBucket.Create` succeeds (nil error) the call
`error.Error()` dereferences a nil interface and panics.  This theorem
evaluates the embedded function at that failing input. -/
theorem setupGoogleStr_panics_when_create_succeeds :
    setupGoogleStr ⟨none, none⟩ "proj" "bucket" "file.json" =
      .nilDeref := rfl

/-- C3: `Validate` checks the four configuration invariants in source
order, reports the first violated one with its descriptive message, and
returns nil exactly when all four hold.  (`Config.Validate` is a pure
function of the configuration value, so it has no side effects on the
configuration by construction.) -/
theorem Validate_first_violation_in_order (conf : Config) :
    (conf.Validate = none ↔
      credOK conf ∧ zoneOK conf ∧ sampleOK conf ∧ storageOK conf) ∧
    (¬ credOK conf →
      conf.Validate = some "Must provide both api-key and api-email") ∧
    (credOK conf → ¬ zoneOK conf →
      conf.Validate = some "zone-name OR zone-id must be set") ∧
    (credOK conf → zoneOK conf → ¬ sampleOK conf →
      conf.Validate = some "sample must be between 0.1 and 0.9") ∧
    (credOK conf → zoneOK conf → sampleOK conf → ¬ storageOK conf →
      conf.Validate =
        some "Both google-storage-bucket and google-project-id must be provided to upload to Google Storage") :=
  Validate_cases conf

/-- Witness for C3 at a concrete configuration. -/
theorem Validate_first_violation_in_order_witness :
    (baseConf.Validate = none ↔
      credOK baseConf ∧ zoneOK baseConf ∧ sampleOK baseConf ∧ storageOK baseConf) ∧
    (¬ credOK baseConf →
      baseConf.Validate = some "Must provide both api-key and api-email") ∧
    (credOK baseConf → ¬ zoneOK baseConf →
      baseConf.Validate = some "zone-name OR zone-id must be set") ∧
    (credOK baseConf → zoneOK baseConf → ¬ sampleOK baseConf →
      baseConf.Validate = some "sample must be between 0.1 and 0.9") ∧
    (credOK baseConf → zoneOK baseConf → sampleOK baseConf → ¬ storageOK baseConf →
      baseConf.Validate =
        some "Both google-storage-bucket and google-project-id must be provided to upload to Google Storage") :=
  Validate_first_violation_in_order baseConf

/-- C4: for every configuration whose credential, zone and storage
invariants hold, `Validate` errors when the sampling rate is strictly
between 0 and 0.1 or strictly greater than 0.9, and succeeds when the
sampling rate is exactly 0 or lies in [0.1, 0.9]. -/
theorem Validate_sample_range (conf : Config)
    (hc : credOK conf) (hz : zoneOK conf) (hst : storageOK conf) :
    (((0 < conf.sample ∧ conf.sample < 1/10) ∨ 9/10 < conf.sample) →
      conf.Validate = some "sample must be between 0.1 and 0.9") ∧
    ((conf.sample = 0 ∨ (1/10 ≤ conf.sample ∧ conf.sample ≤ 9/10)) →
      conf.Validate = none) := by
  constructor
  · intro hbad
    refine (Validate_cases conf).2.2.2.1 hc hz ?_
    unfold sampleOK
    push_neg
    rcases hbad with ⟨hpos, hlt⟩ | hgt
    · exact ⟨ne_of_gt hpos, fun hle => absurd (hle.trans_lt hlt) (lt_irrefl _)⟩
    · refine ⟨?_, fun _ => hgt⟩
      have : (0 : ℚ) < conf.sample := lt_trans (by norm_num) hgt
      exact ne_of_gt this
  · intro hgood
    exact (Validate_cases conf).1.mpr ⟨hc, hz, hgood, hst⟩

/-- Witness for C4 at concrete configurations: sampling rate 2 (> 0.9)
errors, sampling rate 0 succeeds. -/
theorem Validate_sample_range_witness :
    ((((0:ℚ) < 2 ∧ (2:ℚ) < 1/10) ∨ (9:ℚ)/10 < 2) →
      Config.Validate { baseConf with sample := 2 } =
        some "sample must be between 0.1 and 0.9") ∧
    (((2:ℚ) = 0 ∨ ((1:ℚ)/10 ≤ 2 ∧ (2:ℚ) ≤ 9/10)) →
      Config.Validate { baseConf with sample := 2 } = none) :=
  Validate_sample_range { baseConf with sample := 2 }
    ⟨by decide, by decide⟩ (Or.inl (by decide)) (by decide)

/-! ### Helper lemmas about `GetClientFromConfigAndContext` and `runLoop` -/

theorem runLoop_fst (env : Env) (fenvs : Nat → FetchEnv) (cliConf : Config)
    (lt : Int) (n : Nat) :
    (runLoop env fenvs cliConf lt n).1 = GetClientFromConfigAndContext env cliConf := by
  unfold runLoop
  cases h : (GetClientFromConfigAndContext env cliConf).outcome <;> simp [h]

theorem resolveZone_nonempty (cfNewErr : Option String)
    (lookup : String → Except String String) (conf : Config)
    (h : conf.zoneID ≠ "") :
    resolveZone cfNewErr lookup conf = (.ok conf, 0) := by
  unfold resolveZone
  simp [h]

theorem resolveZone_calls_le_one (cfNewErr : Option String)
    (lookup : String → Except String String) (conf : Config) :
    (resolveZone cfNewErr lookup conf).2 ≤ 1 := by
  unfold resolveZone
  by_cases h : conf.zoneID = "" <;> simp [h]
  cases lookup conf.zoneName <;> simp

theorem mkLogshareClient_conf (env : Env) (conf : Config) (dest : Option GWriter)
    (closers lookupCalls : Nat) :
    (mkLogshareClient env conf dest closers lookupCalls).conf = conf := by
  unfold mkLogshareClient
  cases env.logshareNewErr <;> rfl

theorem mkLogshareClient_lookupCalls (env : Env) (conf : Config) (dest : Option GWriter)
    (closers lookupCalls : Nat) :
    (mkLogshareClient env conf dest closers lookupCalls).lookupCalls = lookupCalls := by
  unfold mkLogshareClient
  cases env.logshareNewErr <;> rfl

theorem GetClient_lookupCalls_eq (env : Env) (cliConf : Config) :
    (GetClientFromConfigAndContext env cliConf).lookupCalls =
      (if cliConf.Validate = none then
        (resolveZone env.cfNewErr env.lookup cliConf).2 else 0) := by
  unfold GetClientFromConfigAndContext
  cases hv : cliConf.Validate with
  | some e => simp
  | none =>
    simp only [if_pos rfl]
    rcases hr : resolveZone env.cfNewErr env.lookup cliConf with ⟨res, n⟩
    cases res with
    | error e => simp
    | ok conf =>
      by_cases hb : conf.googleStorageBucket != ""
      · simp only [hb, if_true]
        cases hs : setupGoogleStr env.gcs conf.googleProjectID conf.googleStorageBucket
            ("cloudflare_els_" ++ conf.zoneID ++ "_" ++ toString env.nowUnix ++ ".json") with
        | ok w => simp [mkLogshareClient_lookupCalls]
        | fail e => simp
        | nilDeref => simp
      · simp only [hb, if_false]
        simp [mkLogshareClient_lookupCalls]

theorem GetClient_conf_of_resolved (env : Env) (cliConf conf : Config) (n : Nat)
    (hv : cliConf.Validate = none)
    (hr : resolveZone env.cfNewErr env.lookup cliConf = (.ok conf, n)) :
    (GetClientFromConfigAndContext env cliConf).conf = conf := by
  unfold GetClientFromConfigAndContext
  rw [hv, hr]
  by_cases hb : conf.googleStorageBucket != ""
  · simp only [hb, if_true]
    cases hs : setupGoogleStr env.gcs conf.googleProjectID conf.googleStorageBucket
        ("cloudflare_els_" ++ conf.zoneID ++ "_" ++ toString env.nowUnix ++ ".json") with
    | ok w => simp [mkLogshareClient_conf]
    | fail e => simp
    | nilDeref => simp
  · simp only [hb, if_false]
    simp [mkLogshareClient_conf]

theorem GetClient_conf_of_invalid (env : Env) (cliConf : Config) (e : String)
    (hv : cliConf.Validate = some e) :
    (GetClientFromConfigAndContext env cliConf).conf = cliConf := by
  unfold GetClientFromConfigAndContext
  rw [hv]

theorem GetClient_conf_of_resolve_error (env : Env) (cliConf : Config) (e : String) (n : Nat)
    (hv : cliConf.Validate = none)
    (hr : resolveZone env.cfNewErr env.lookup cliConf = (.error e, n)) :
    (GetClientFromConfigAndContext env cliConf).conf = cliConf := by
  unfold GetClientFromConfigAndContext
  rw [hv, hr]

theorem GetClient_outcome_of_resolve_error (env : Env) (cliConf : Config) (e : String) (n : Nat)
    (hv : cliConf.Validate = none)
    (hr : resolveZone env.cfNewErr env.lookup cliConf = (.error e, n)) :
    (GetClientFromConfigAndContext env cliConf).outcome = .errored e := by
  unfold GetClientFromConfigAndContext
  rw [hv, hr]

theorem resolveZone_ok_shape (cfNewErr : Option String)
    (lookup : String → Except String String) (conf conf' : Config) (n : Nat)
    (h : resolveZone cfNewErr lookup conf = (.ok conf', n)) :
    conf' = conf ∨ (conf.zoneID = "" ∧ ∃ id, conf' = { conf with zoneID := id }) := by
  unfold resolveZone at h
  by_cases hz : conf.zoneID = ""
  · rw [if_pos (by simp [hz])] at h
    cases hl : lookup conf.zoneName with
    | error e => rw [hl] at h; simp at h
    | ok id =>
      rw [hl] at h
      simp only [Prod.mk.injEq, Except.ok.injEq] at h
      exact Or.inr ⟨hz, id, h.1.symm⟩
  · rw [if_neg (by simp [hz])] at h
    simp only [Prod.mk.injEq, Except.ok.injEq] at h
    exact Or.inl h.1.symm

/-- C5: when the CLI-supplied zone identifier is non-empty, zone
resolution returns it unchanged and never invokes the name-lookup
capability; moreover the setup result of a loop-mode run — including its
lookup-invocation count and resolved configuration — is independent of
the number of loop iterations, so resolution happens once per process
invocation, never per iteration. -/
theorem zone_resolution_skips_lookup (env : Env) (fenvs : Nat → FetchEnv)
    (cliConf : Config) (loopTime : Int) (n : Nat) (h : cliConf.zoneID ≠ "") :
    resolveZone env.cfNewErr env.lookup cliConf = (.ok cliConf, 0) ∧
    (runLoop env fenvs cliConf loopTime n).1.lookupCalls = 0 ∧
    (runLoop env fenvs cliConf loopTime n).1.conf.zoneID = cliConf.zoneID ∧
    (runLoop env fenvs cliConf loopTime n).1 = (runLoop env fenvs cliConf loopTime 0).1 := by
  have hres := resolveZone_nonempty env.cfNewErr env.lookup cliConf h
  refine ⟨hres, ?_, ?_, ?_⟩
  · rw [runLoop_fst, GetClient_lookupCalls_eq]
    split_ifs with hv
    · rw [hres]
    · rfl
  · rw [runLoop_fst]
    cases hv : cliConf.Validate with
    | some e => rw [GetClient_conf_of_invalid env cliConf e hv]
    | none => rw [GetClient_conf_of_resolved env cliConf cliConf 0 hv hres]
  · rw [runLoop_fst, runLoop_fst]

/-- Witness for C5 at a concrete environment and configuration. -/
theorem zone_resolution_skips_lookup_witness :
    baseConf.zoneID ≠ "" ∧
    (resolveZone none (fun _ => Except.ok "z9") baseConf = (.ok baseConf, 0) ∧
     (runLoop ⟨none, fun _ => Except.ok "z9", ⟨none, none⟩, none, 7⟩
        (fun _ => ⟨fun _ => Except.error "down", fun _ _ _ _ => Except.error "down"⟩)
        baseConf 60 3).1.lookupCalls = 0 ∧
     (runLoop ⟨none, fun _ => Except.ok "z9", ⟨none, none⟩, none, 7⟩
        (fun _ => ⟨fun _ => Except.error "down", fun _ _ _ _ => Except.error "down"⟩)
        baseConf 60 3).1.conf.zoneID = baseConf.zoneID ∧
     (runLoop ⟨none, fun _ => Except.ok "z9", ⟨none, none⟩, none, 7⟩
        (fun _ => ⟨fun _ => Except.error "down", fun _ _ _ _ => Except.error "down"⟩)
        baseConf 60 3).1 =
       (runLoop ⟨none, fun _ => Except.ok "z9", ⟨none, none⟩, none, 7⟩
        (fun _ => ⟨fun _ => Except.error "down", fun _ _ _ _ => Except.error "down"⟩)
        baseConf 60 0).1) :=
  ⟨by decide,
   zone_resolution_skips_lookup ⟨none, fun _ => Except.ok "z9", ⟨none, none⟩, none, 7⟩
     (fun _ => ⟨fun _ => Except.error "down", fun _ _ _ _ => Except.error "down"⟩)
     baseConf 60 3 (by decide)⟩

/-- C6 counterexample: with an empty zone identifier and a failing
lookup, the error `resolveZone` returns wraps the failure with the
context string "could not find a zone for the given ID" — the context
string "could not find a zone for the given name/ID" claimed by the
specification does not occur in the returned error text. -/
theorem zone_error_context_counterexample :
    (resolveZone none (fun _ => Except.error "boom")
      { baseConf with zoneID := "", zoneName := "example.com" }).1 =
      .error "could not find a zone for the given ID: boom" ∧
    stringsContains "could not find a zone for the given ID: boom"
      "could not find a zone for the given name/ID" = false :=
  ⟨rfl, by decide⟩

/-- C6 (amended): when the zone identifier is empty and the name-lookup
capability fails, zone resolution returns an error that wraps the
underlying failure with the context string
"could not find a zone for the given ID". -/
theorem zone_error_context_amended (cfNewErr : Option String)
    (lookup : String → Except String String) (conf : Config) (e : String)
    (hz : conf.zoneID = "") (hf : lookup conf.zoneName = Except.error e) :
    (resolveZone cfNewErr lookup conf).1 =
      .error ("could not find a zone for the given ID: " ++ e) := by
  unfold resolveZone errorsWrap
  rw [if_pos (by simp [hz]), hf]
  simp [String.append_assoc]

/-- Witness for the amended C6 at a concrete failing lookup. -/
theorem zone_error_context_amended_witness :
    (resolveZone none (fun _ => Except.error "boom")
      { baseConf with zoneID := "", zoneName := "example.com" }).1 =
      .error ("could not find a zone for the given ID: " ++ "boom") :=
  zone_error_context_amended none (fun _ => Except.error "boom")
    { baseConf with zoneID := "", zoneName := "example.com" } "boom" rfl rfl

/-- C9: after the configuration is populated from CLI input, the only
field client construction ever changes is the zone identifier, and only
when it was empty (the backfill); the loop leaves the configuration of
the setup result untouched for every iteration count.  (`ClientWork`
takes the configuration as a read-only value in the embedding, exactly
as the Go function only reads `conf`.) -/
theorem config_mutated_only_zone_backfill (env : Env) (fenvs : Nat → FetchEnv)
    (cliConf : Config) (loopTime : Int) (n : Nat) :
    ((GetClientFromConfigAndContext env cliConf).conf = cliConf ∨
      (cliConf.zoneID = "" ∧ ∃ id,
        (GetClientFromConfigAndContext env cliConf).conf = { cliConf with zoneID := id })) ∧
    (runLoop env fenvs cliConf loopTime n).1.conf =
      (GetClientFromConfigAndContext env cliConf).conf := by
  constructor
  · cases hv : cliConf.Validate with
    | some e => exact Or.inl (GetClient_conf_of_invalid env cliConf e hv)
    | none =>
      rcases hr : resolveZone env.cfNewErr env.lookup cliConf with ⟨res, m⟩
      cases res with
      | error e => exact Or.inl (GetClient_conf_of_resolve_error env cliConf e m hv hr)
      | ok conf =>
        rw [GetClient_conf_of_resolved env cliConf conf m hv hr]
        exact resolveZone_ok_shape env.cfNewErr env.lookup cliConf conf m hr
  · rw [runLoop_fst]

/-- Witness for C9 at a concrete environment and configuration. -/
theorem config_mutated_only_zone_backfill_witness :
    ((GetClientFromConfigAndContext ⟨none, fun _ => Except.ok "z9", ⟨none, none⟩, none, 7⟩
        { baseConf with zoneID := "", zoneName := "example.com" }).conf =
        { baseConf with zoneID := "", zoneName := "example.com" } ∨
      (Config.zoneID { baseConf with zoneID := "", zoneName := "example.com" } = "" ∧ ∃ id,
        (GetClientFromConfigAndContext ⟨none, fun _ => Except.ok "z9", ⟨none, none⟩, none, 7⟩
          { baseConf with zoneID := "", zoneName := "example.com" }).conf =
          { { baseConf with zoneID := "", zoneName := "example.com" } with zoneID := id })) ∧
    (runLoop ⟨none, fun _ => Except.ok "z9", ⟨none, none⟩, none, 7⟩
       (fun _ => ⟨fun _ => Except.error "down", fun _ _ _ _ => Except.error "down"⟩)
       { baseConf with zoneID := "", zoneName := "example.com" } 60 2).1.conf =
      (GetClientFromConfigAndContext ⟨none, fun _ => Except.ok "z9", ⟨none, none⟩, none, 7⟩
        { baseConf with zoneID := "", zoneName := "example.com" }).conf :=
  config_mutated_only_zone_backfill ⟨none, fun _ => Except.ok "z9", ⟨none, none⟩, none, 7⟩
    (fun _ => ⟨fun _ => Except.error "down", fun _ _ _ _ => Except.error "down"⟩)
    { baseConf with zoneID := "", zoneName := "example.com" } 60 2

/-- C7: each `ClientWork` call invokes exactly one fetch operation —
field enumeration with the resolved zone ID when `listFields` is set,
otherwise the time-range fetch with the resolved zone ID, start time,
end time and count — never both; an underlying failure is wrapped with
the operation-specific context, and on success the result metadata is
logged and nil is returned. -/
theorem ClientWork_dispatches_exactly_one (fenv : FetchEnv) (conf : Config)
    (client : LSClient) (e : String) (meta : Meta) :
    (conf.listFields = true →
      (ClientWork fenv conf client).fieldNameCalls = [conf.zoneID] ∧
      (ClientWork fenv conf client).timestampCalls = [] ∧
      (fenv.fetchFieldNames conf.zoneID = Except.error e →
        (ClientWork fenv conf client).err =
          some ("failed to fetch field names: " ++ e)) ∧
      (fenv.fetchFieldNames conf.zoneID = Except.ok meta →
        (ClientWork fenv conf client).err = none ∧
        (ClientWork fenv conf client).logs =
          [.logHTTP meta.statusCode meta.duration meta.url,
           .logRetrieved meta.count])) ∧
    (conf.listFields = false →
      (ClientWork fenv conf client).fieldNameCalls = [] ∧
      (ClientWork fenv conf client).timestampCalls =
        [(conf.zoneID, conf.startTime, conf.endTime, conf.count)] ∧
      (fenv.getFromTimestamp conf.zoneID conf.startTime conf.endTime conf.count =
          Except.error e →
        (ClientWork fenv conf client).err =
          some ("failed to fetch via timestamp: " ++ e)) ∧
      (fenv.getFromTimestamp conf.zoneID conf.startTime conf.endTime conf.count =
          Except.ok meta →
        (ClientWork fenv conf client).err = none ∧
        (ClientWork fenv conf client).logs =
          [.logHTTP meta.statusCode meta.duration meta.url,
           .logRetrieved meta.count])) := by
  constructor
  · intro hlf
    unfold ClientWork
    rw [hlf]
    cases hres : fenv.fetchFieldNames conf.zoneID with
    | error f =>
      refine ⟨rfl, rfl, fun he => ?_, fun hm => ?_⟩
      · injection he with he
        subst he
        simp [errorsWrap]
      · exact absurd hm (by simp)
    | ok m =>
      refine ⟨rfl, rfl, fun he => ?_, fun hm => ?_⟩
      · exact absurd he (by simp)
      · injection hm with hm
        subst hm
        exact ⟨rfl, rfl⟩
  · intro hlf
    unfold ClientWork
    rw [hlf]
    cases hres : fenv.getFromTimestamp conf.zoneID conf.startTime conf.endTime conf.count with
    | error f =>
      refine ⟨rfl, rfl, fun he => ?_, fun hm => ?_⟩
      · injection he with he
        subst he
        simp [errorsWrap]
      · exact absurd hm (by simp)
    | ok m =>
      refine ⟨rfl, rfl, fun he => ?_, fun hm => ?_⟩
      · exact absurd he (by simp)
      · injection hm with hm
        subst hm
        exact ⟨rfl, rfl⟩

/-- Witness for C7 at a concrete fetch environment and configuration. -/
theorem ClientWork_dispatches_exactly_one_witness :
    (baseConf.listFields = true →
      (ClientWork ⟨fun _ => Except.error "down", fun _ _ _ _ => Except.error "down"⟩
          baseConf ⟨"k", "e", ⟨[], none, true, 0, "unixnano"⟩⟩).fieldNameCalls =
        [baseConf.zoneID] ∧
      (ClientWork ⟨fun _ => Except.error "down", fun _ _ _ _ => Except.error "down"⟩
          baseConf ⟨"k", "e", ⟨[], none, true, 0, "unixnano"⟩⟩).timestampCalls = [] ∧
      ((fun (_ : String) => (Except.error "down" : Except String Meta)) baseConf.zoneID =
          Except.error "down" →
        (ClientWork ⟨fun _ => Except.error "down", fun _ _ _ _ => Except.error "down"⟩
            baseConf ⟨"k", "e", ⟨[], none, true, 0, "unixnano"⟩⟩).err =
          some ("failed to fetch field names: " ++ "down")) ∧
      ((fun (_ : String) => (Except.error "down" : Except String Meta)) baseConf.zoneID =
          Except.ok ⟨200, 10, "u", 1⟩ →
        (ClientWork ⟨fun _ => Except.error "down", fun _ _ _ _ => Except.error "down"⟩
            baseConf ⟨"k", "e", ⟨[], none, true, 0, "unixnano"⟩⟩).err = none ∧
        (ClientWork ⟨fun _ => Except.error "down", fun _ _ _ _ => Except.error "down"⟩
            baseConf ⟨"k", "e", ⟨[], none, true, 0, "unixnano"⟩⟩).logs =
          [.logHTTP 200 10 "u", .logRetrieved 1])) ∧
    (baseConf.listFields = false →
      (ClientWork ⟨fun _ => Except.error "down", fun _ _ _ _ => Except.error "down"⟩
          baseConf ⟨"k", "e", ⟨[], none, true, 0, "unixnano"⟩⟩).fieldNameCalls = [] ∧
      (ClientWork ⟨fun _ => Except.error "down", fun _ _ _ _ => Except.error "down"⟩
          baseConf ⟨"k", "e", ⟨[], none, true, 0, "unixnano"⟩⟩).timestampCalls =
        [(baseConf.zoneID, baseConf.startTime, baseConf.endTime, baseConf.count)] ∧
      ((fun (_ : String) (_ _ _ : Int) => (Except.error "down" : Except String Meta))
          baseConf.zoneID baseConf.startTime baseConf.endTime baseConf.count =
          Except.error "down" →
        (ClientWork ⟨fun _ => Except.error "down", fun _ _ _ _ => Except.error "down"⟩
            baseConf ⟨"k", "e", ⟨[], none, true, 0, "unixnano"⟩⟩).err =
          some ("failed to fetch via timestamp: " ++ "down")) ∧
      ((fun (_ : String) (_ _ _ : Int) => (Except.error "down" : Except String Meta))
          baseConf.zoneID baseConf.startTime baseConf.endTime baseConf.count =
          Except.ok ⟨200, 10, "u", 1⟩ →
        (ClientWork ⟨fun _ => Except.error "down", fun _ _ _ _ => Except.error "down"⟩
            baseConf ⟨"k", "e", ⟨[], none, true, 0, "unixnano"⟩⟩).err = none ∧
        (ClientWork ⟨fun _ => Except.error "down", fun _ _ _ _ => Except.error "down"⟩
            baseConf ⟨"k", "e", ⟨[], none, true, 0, "unixnano"⟩⟩).logs =
          [.logHTTP 200 10 "u", .logRetrieved 1])) :=
  ClientWork_dispatches_exactly_one
    ⟨fun _ => Except.error "down", fun _ _ _ _ => Except.error "down"⟩
    baseConf ⟨"k", "e", ⟨[], none, true, 0, "unixnano"⟩⟩ "down" ⟨200, 10, "u", 1⟩

/-- C8: in loop mode no iteration reaches a terminal state: the trace of
`n + 1` iterations always extends the trace of `n` iterations by one
full iteration, which logs the iteration's outcome (the wrapped error on
failure, the result metadata on success), logs and performs the sleep,
and is never empty — for every sequence of per-iteration fetch
outcomes. -/
theorem loop_iteration_never_terminal (fenvs : Nat → FetchEnv) (conf : Config)
    (client : LSClient) (loopTime : Int) (n : Nat) (e : String) :
    runLoopTrace fenvs conf client loopTime (n + 1) =
      runLoopTrace fenvs conf client loopTime n ++
        loopIter (fenvs n) conf client loopTime ∧
    ((ClientWork (fenvs n) conf client).err = some e →
      loopIter (fenvs n) conf client loopTime =
        (ClientWork (fenvs n) conf client).logs ++
          [.logError e, .logSleep loopTime, .sleep loopTime]) ∧
    ((ClientWork (fenvs n) conf client).err = none →
      loopIter (fenvs n) conf client loopTime =
        (ClientWork (fenvs n) conf client).logs ++
          [.logSleep loopTime, .sleep loopTime]) ∧
    Event.sleep loopTime ∈ loopIter (fenvs n) conf client loopTime ∧
    loopIter (fenvs n) conf client loopTime ≠ [] := by
  refine ⟨rfl, fun herr => ?_, fun hok => ?_, ?_, ?_⟩
  · unfold loopIter
    rw [herr]
    simp
  · unfold loopIter
    rw [hok]
    simp
  · unfold loopIter
    cases (ClientWork (fenvs n) conf client).err <;> simp
  · unfold loopIter
    cases (ClientWork (fenvs n) conf client).err <;> simp

/-- Witness for C8 at a concrete failing fetch environment. -/
theorem loop_iteration_never_terminal_witness :
    runLoopTrace (fun _ => failFetchEnv) baseConf testClient 60 (0 + 1) =
      runLoopTrace (fun _ => failFetchEnv) baseConf testClient 60 0 ++
        loopIter failFetchEnv baseConf testClient 60 ∧
    ((ClientWork failFetchEnv baseConf testClient).err =
        some ("failed to fetch via timestamp: " ++ "down") →
      loopIter failFetchEnv baseConf testClient 60 =
        (ClientWork failFetchEnv baseConf testClient).logs ++
          [.logError ("failed to fetch via timestamp: " ++ "down"),
           .logSleep 60, .sleep 60]) ∧
    ((ClientWork failFetchEnv baseConf testClient).err = none →
      loopIter failFetchEnv baseConf testClient 60 =
        (ClientWork failFetchEnv baseConf testClient).logs ++
          [.logSleep 60, .sleep 60]) ∧
    Event.sleep 60 ∈ loopIter failFetchEnv baseConf testClient 60 ∧
    loopIter failFetchEnv baseConf testClient 60 ≠ [] :=
  loop_iteration_never_terminal (fun _ => failFetchEnv) baseConf testClient 60 0
    ("failed to fetch via timestamp: " ++ "down")

/-- C10: the error result of constructing the name-lookup client
(`cloudflare.New`) never influences the outcome — the Go source assigns
it to `err` and immediately overwrites `err` with the result of
`cf.ZoneIDByName` — so `GetClientFromConfigAndContext` is unchanged
under any value of that error, and zone resolution produces an error
(which the function then returns) exactly when the name-to-ID lookup
does. -/
theorem cloudflareNew_error_never_influences (env : Env) (e' : Option String)
    (cliConf : Config) (msg : String) (hv : cliConf.Validate = none) :
    GetClientFromConfigAndContext { env with cfNewErr := e' } cliConf =
      GetClientFromConfigAndContext env cliConf ∧
    ((∃ m, (resolveZone env.cfNewErr env.lookup cliConf).1 = .error m) ↔
      (cliConf.zoneID = "" ∧ ∃ f, env.lookup cliConf.zoneName = Except.error f)) ∧
    ((resolveZone env.cfNewErr env.lookup cliConf).1 = .error msg →
      (GetClientFromConfigAndContext env cliConf).outcome = .errored msg) := by
  refine ⟨rfl, ?_, ?_⟩
  · unfold resolveZone
    by_cases hz : cliConf.zoneID = ""
    · rw [if_pos (by simp [hz])]
      cases hl : env.lookup cliConf.zoneName with
      | error f => simp [hz]
      | ok id => simp [hz]
    · rw [if_neg (by simp [hz])]
      simp [hz]
  · intro hr
    rcases h2 : resolveZone env.cfNewErr env.lookup cliConf with ⟨res, m⟩
    rw [h2] at hr
    change res = Except.error msg at hr
    subst hr
    exact GetClient_outcome_of_resolve_error env cliConf msg m hv h2

/-- Witness for C10 at a concrete environment with a failing lookup. -/
theorem cloudflareNew_error_never_influences_witness :
    GetClientFromConfigAndContext
        { Env.mk none (fun _ => Except.error "boom") ⟨none, none⟩ none 7 with
            cfNewErr := some "new failed" }
        { baseConf with zoneID := "", zoneName := "example.com" } =
      GetClientFromConfigAndContext
        (Env.mk none (fun _ => Except.error "boom") ⟨none, none⟩ none 7)
        { baseConf with zoneID := "", zoneName := "example.com" } ∧
    ((∃ m, (resolveZone none (fun _ => Except.error "boom")
        { baseConf with zoneID := "", zoneName := "example.com" }).1 = .error m) ↔
      (Config.zoneID { baseConf with zoneID := "", zoneName := "example.com" } = "" ∧
        ∃ f, (fun (_ : String) => (Except.error "boom" : Except String String))
          (Config.zoneName { baseConf with zoneID := "", zoneName := "example.com" }) =
            Except.error f)) ∧
    ((resolveZone none (fun _ => Except.error "boom")
        { baseConf with zoneID := "", zoneName := "example.com" }).1 =
        .error ("could not find a zone for the given ID: " ++ "boom") →
      (GetClientFromConfigAndContext
          (Env.mk none (fun _ => Except.error "boom") ⟨none, none⟩ none 7)
          { baseConf with zoneID := "", zoneName := "example.com" }).outcome =
        .errored ("could not find a zone for the given ID: " ++ "boom")) :=
  cloudflareNew_error_never_influences
    (Env.mk none (fun _ => Except.error "boom") ⟨none, none⟩ none 7)
    (some "new failed")
    { baseConf with zoneID := "", zoneName := "example.com" }
    ("could not find a zone for the given ID: " ++ "boom") (by decide)
